import Mathlib

/-!
Shallow embedding of the cross-source job-record normalization, deduplication
and integration pipeline of the ai-society-job repository.

Sources embedded here:
* `linkedin_scraper.js` — the per-record field normalizer (the `processedJobs`
  map body), the `determineJobType` company classifier and the `generateTags`
  tag generator.
* `integrate_data.py` (inline in `.github/workflows/unified_scraper.yml`) —
  the identity resolver, deduplicator, ranker, aggregator and publisher.

Conventions: JavaScript / Python optional record fields become `Option`
values (`none` stands for an absent or null field); the JavaScript falsy
coalescing `x || d` on strings becomes `jsOr` (absent, null and the empty
string all fall back to the default); code paths that throw (a `TypeError`
from calling `toLowerCase` on `undefined`) are modelled by an `Option`
result, `none` standing for the raised error.  Machine strings are Lean
`String`; lowercasing and substring tests are modelled on the underlying
character list.
-/

namespace AiJobs

/-! ### String helpers: JS `toLowerCase` and `includes` -/

/-- Lowercased character list of a string — models the JavaScript
`s.toLowerCase()` applied to the ASCII company and title strings. -/
def lower (s : String) : List Char := s.data.map Char.toLower

/-- Models the JavaScript `hay.includes(pat)` contiguous-substring test. -/
def includes (hay pat : List Char) : Bool :=
  match hay with
  | [] => pat.isEmpty
  | _ :: rest => pat.isPrefixOf hay || includes rest pat

/-! ### `determineJobType` (linkedin_scraper.js lines 724–731) -/

/-- First rule of the classifier: company contains `university` or `college`. -/
def univMatch (c : List Char) : Bool :=
  includes c ("university".data) || includes c ("college".data)

/-- Second rule: company contains `government` or `federal`. -/
def govMatch (c : List Char) : Bool :=
  includes c ("government".data) || includes c ("federal".data)

/-- Third rule: company contains `united nations` or `oecd`. -/
def intlMatch (c : List Char) : Bool :=
  includes c ("united nations".data) || includes c ("oecd".data)

/-- Fourth rule: company contains `foundation` or `nonprofit`. -/
def nonprofitMatch (c : List Char) : Bool :=
  includes c ("foundation".data) || includes c ("nonprofit".data)

/-- Embeds `determineJobType` of linkedin_scraper.js: an ordered decision
list over case-insensitive substring tests of the company name, first match
wins, defaulting to `industry`. -/
def determineJobType (company : String) : String :=
  let companyLower := lower company
  if univMatch companyLower then "faculty"
  else if govMatch companyLower then "government"
  else if intlMatch companyLower then "international"
  else if nonprofitMatch companyLower then "nonprofit"
  else "industry"

/-! ### First-occurrence deduplication

Both `[...new Set(tags)]` in `generateTags` and the `seen` / `unique_jobs`
loop of `integrate_data.py` keep the first occurrence of each key in input
order.  `dedupKeyed key seen l` drops every element whose key was already
seen, scanning left to right. -/

def dedupKeyed {α β : Type} [DecidableEq β] (key : α → β) :
    List β → List α → List α
  | _, [] => []
  | seen, x :: rest =>
    if key x ∈ seen then dedupKeyed key seen rest
    else x :: dedupKeyed key (key x :: seen) rest

/-! ### `generateTags` (linkedin_scraper.js lines 733–742) -/

/-- Embeds `generateTags`: start from the search keyword, append a canonical
tag for each vocabulary hit in the lowercased title, then deduplicate with
`[...new Set(tags)]` (first occurrence kept, insertion order preserved). -/
def generateTags (title searchQuery : String) : List String :=
  let content := lower title
  let tags := [searchQuery]
  let tags := tags ++
    (if includes content ("ai".data) || includes content ("artificial intelligence".data)
     then ["AI"] else [])
  let tags := tags ++ (if includes content ("ethics".data) then ["Ethics"] else [])
  let tags := tags ++ (if includes content ("policy".data) then ["Policy"] else [])
  let tags := tags ++ (if includes content ("research".data) then ["Research"] else [])
  let tags := tags ++
    (if includes content ("senior".data) || includes content ("lead".data)
     then ["Senior"] else [])
  dedupKeyed id [] tags

/-! ### The integrator record model (integrate_data.py)

`integrate_data.py` treats each job as a JSON mapping and reads at most the
eight fields below via `job.get(k, default)`; every record it keeps is
carried into the output verbatim.  `none` stands for an absent (or null)
field; `payload` stands for all the fields the integrator never inspects,
so that records with the same identity but different contents can be told
apart. -/

structure PyJob where
  title : Option String
  company : Option String
  source_url : Option String
  relevance_score : Option Int
  gemini_analyzed : Option Bool
  is_remote : Option Bool
  job_type : Option String
  category : Option String
  payload : String
deriving DecidableEq

/-- Embeds the identifier computation of integrate_data.py (lines 164–168):
`url = job.get('source_url', '')`, `title_company = f"{title}-{company}"`,
`identifier = url if url else title_company` — a non-empty URL is the
identity verbatim, otherwise title and company joined by `-`. -/
def identifier (j : PyJob) : String :=
  let url := j.source_url.getD ""
  let title_company := j.title.getD "" ++ "-" ++ j.company.getD ""
  if url = "" then title_company else url

/-- Embeds the `seen` / `unique_jobs` loop of integrate_data.py
(lines 160–172): keep the first record of each identity, in input order. -/
def dedupJobs (l : List PyJob) : List PyJob := dedupKeyed identifier [] l

/-- Embeds the sort key of `unique_jobs.sort(key=lambda x:
x.get('relevance_score', 0), reverse=True)` — an absent score defaults
to 0. -/
def sortKey (j : PyJob) : Int := j.relevance_score.getD 0

/-- The ordering used by the ranker: `a` may come before `b` when the sort
key of `b` is at most the sort key of `a` (descending order). -/
def jobGE (a b : PyJob) : Prop := sortKey b ≤ sortKey a

instance : DecidableRel jobGE := fun a b => Int.decLe (sortKey b) (sortKey a)

instance : IsTotal PyJob jobGE := ⟨fun a b => le_total (sortKey b) (sortKey a)⟩

instance : IsTrans PyJob jobGE := ⟨fun _ _ _ hab hbc => le_trans hbc hab⟩

/-- Embeds `unique_jobs.sort(key=..., reverse=True)` (line 175).  Python
`list.sort` is a stable sort; it is modelled by a stable insertion sort on
the same descending key order. -/
def rankJobs (l : List PyJob) : List PyJob := l.insertionSort jobGE

/-- One step of the Python tally `d[k] = d.get(k, 0) + 1` on an
insertion-ordered association list. -/
def bump (m : List (String × Nat)) (k : String) : List (String × Nat) :=
  match m with
  | [] => [(k, 1)]
  | (k2, v) :: rest => if k2 = k then (k2, v + 1) :: rest else (k2, v) :: bump rest k

/-- The `by_job_type` tally loop of integrate_data.py (lines 199–201). -/
def tallyJobType (jobs : List PyJob) : List (String × Nat) :=
  jobs.foldl (fun m j => bump m (j.job_type.getD "unknown")) []

/-- The `by_category` tally loop of integrate_data.py (lines 203–204). -/
def tallyCategory (jobs : List PyJob) : List (String × Nat) :=
  jobs.foldl (fun m j => bump m (j.category.getD "unknown")) []

/-- The `stats` mapping of integrate_data.py (lines 178–196); the nested
`sources` dict is flattened into the four `sources_*` fields. -/
structure Stats where
  total_jobs : Nat
  academic_jobs : Nat
  jsearch_jobs : Nat
  rss_jobs : Nat
  linkedin_jobs : Nat
  duplicates_removed : Nat
  high_relevance : Nat
  gemini_analyzed : Nat
  remote_jobs : Nat
  by_job_type : List (String × Nat)
  by_category : List (String × Nat)
  sources_academic : Nat
  sources_jsearch : Nat
  sources_rss : Nat
  sources_linkedin : Nat

/-- The `metadata` mapping of `master_data` (lines 210–216); the two
timestamps are taken as a parameter `now`. -/
structure Metadata where
  last_update : String
  total_unique_jobs : Nat
  sources_integrated : List String
  integration_date : String
  note : String

/-- The `master_data` artifact of integrate_data.py (lines 207–217). -/
structure MasterData where
  jobs : List PyJob
  stats : Stats
  metadata : Metadata

/-- Embeds the integration phase of integrate_data.py: concatenate the three
per-source arrays in source order (academic, rss, linkedin; jsearch is
disabled and contributes zero), deduplicate first-occurrence-wins, sort by
descending relevance score, then assemble the stats and metadata. -/
def integrate (now : String) (academic rss linkedin : List PyJob) : MasterData :=
  let all_jobs := academic ++ rss ++ linkedin
  let unique_jobs := rankJobs (dedupJobs all_jobs)
  { jobs := unique_jobs
    stats :=
      { total_jobs := unique_jobs.length
        academic_jobs := academic.length
        jsearch_jobs := 0
        rss_jobs := rss.length
        linkedin_jobs := linkedin.length
        duplicates_removed := all_jobs.length - unique_jobs.length
        high_relevance := (unique_jobs.filter (fun j => decide (80 ≤ sortKey j))).length
        gemini_analyzed := (unique_jobs.filter (fun j => j.gemini_analyzed.getD false)).length
        remote_jobs := (unique_jobs.filter (fun j => j.is_remote.getD false)).length
        by_job_type := tallyJobType unique_jobs
        by_category := tallyCategory unique_jobs
        sources_academic := academic.length
        sources_jsearch := 0
        sources_rss := rss.length
        sources_linkedin := linkedin.length }
    metadata :=
      { last_update := now
        total_unique_jobs := unique_jobs.length
        sources_integrated := ["academic", "rss", "linkedin"]
        integration_date := now
        note := "JSearch temporarily disabled due to quota limits" } }

/-! ### The publisher (integrate_data.py lines 219–221)

The script publishes with `open('data/all_jobs_integrated.json', 'w')`
followed by `json.dump(master_data, f, ...)`: opening with mode `w`
truncates the published path at once and the serialized text is then
streamed into it.  `FileState` records the content at the published path
and at a hypothetical temporary path; `publishArtifact payload crashAfter`
runs the publish step on the serialized dataset text `payload`, where
`crashAfter = some k` means the run died after `k` characters had been
written and `none` means it ran to completion. -/

structure FileState where
  published : Option String
  tempFile : Option String
deriving DecidableEq

/-- The first `k` characters of the serialized payload — what a run crashing
after `k` written characters leaves behind. -/
def writtenPrefix (p : String) (k : Nat) : String := ⟨p.data.take k⟩

/-- Embeds the publish step: the target is truncated and rewritten in place;
no temporary file is touched at any point. -/
def publishArtifact (payload : String) (crashAfter : Option Nat)
    (fs : FileState) : FileState :=
  match crashAfter with
  | none => { published := some payload, tempFile := fs.tempFile }
  | some k => { published := some (writtenPrefix payload k), tempFile := fs.tempFile }

/-! ### The field normalizer (linkedin_scraper.js lines 655–675)

A raw record from the `linkedin-jobs-api` query; every field may be absent
(`none` models both `undefined` and `null`). -/

structure RawJob where
  position : Option String
  company : Option String
  location : Option String
  date : Option String
  jobUrl : Option String
  salary : Option String
  companyLogo : Option String
  agoTime : Option String
deriving DecidableEq

/-- The fields of a search combination that the normalizer reads
(`combo.keyword`, `combo.location`, `combo.experienceLevel` and the
never-present `combo.gemini_analyze`); the remaining combo fields only shape
the outgoing query. -/
structure Combo where
  keyword : String
  location : String
  experienceLevel : String
  gemini_analyze : Option Bool
deriving DecidableEq

/-- The canonical Job Record built by the normalizer, with every field the
object literal of `processedJobs` assigns. -/
structure JobRecord where
  title : String
  company : String
  location : String
  job_type : String
  category : String
  description : String
  posting_date : String
  deadline : Option String
  source_url : String
  source_site : String
  tags : List String
  relevance_score : Int
  salary_info : String
  is_remote : Bool
  search_query : String
  experience_level : String
  company_logo : String
  ago_time : String
  gemini_analyze : Bool
deriving DecidableEq

/-- The JavaScript string coalescing `v || d`: absent, null and the empty
string are falsy and fall back to the default. -/
def jsOr (v : Option String) (d : String) : String :=
  match v with
  | none => d
  | some s => if s = "" then d else s

/-- Template-literal rendering of a possibly absent value (an absent field
prints as the text `undefined`). -/
def jsShow (v : Option String) : String := v.getD "undefined"

/-- Embeds one element of the `processedJobs` map of linkedin_scraper.js
(lines 655–675), the Field Normalizer for one raw record.  `today` stands
for `new Date().toISOString().split('T')[0]`.  The map body calls
`determineJobType(job.company)` and `generateTags(job.position, ...)`,
which invoke `toLowerCase` on the raw field; when `company` or `position`
is absent or null that call throws a TypeError, modelled by `none`. -/
def normalize (today : String) (combo : Combo) (job : RawJob) :
    Option JobRecord :=
  match job.company with
  | none => none
  | some comp =>
    match job.position with
    | none => none
    | some pos =>
      some
        { title := jsOr job.position "Unknown Position"
          company := jsOr job.company "Unknown Company"
          location := jsOr job.location combo.location
          job_type := determineJobType comp
          category := "research"
          description := "LinkedIn: " ++ jsShow job.position ++ " at "
            ++ jsShow job.company ++ ". Query: " ++ combo.keyword
          posting_date := jsOr job.date today
          deadline := none
          source_url := jsOr job.jobUrl ""
          source_site := "linkedin"
          tags := generateTags pos combo.keyword
          relevance_score := 60
          salary_info := jsOr job.salary ""
          is_remote := decide (combo.location = "Remote")
            || (match job.location with
                | none => false
                | some loc => includes (lower loc) ("remote".data))
          search_query := combo.keyword
          experience_level := combo.experienceLevel
          company_logo := jsOr job.companyLogo ""
          ago_time := jsOr job.agoTime ""
          gemini_analyze := combo.gemini_analyze.getD false }

/-! ### Concrete records used by witnesses and counterexamples -/

/-- A record with no `relevance_score` field. -/
def jNoScore : PyJob :=
  { title := some "No Score", company := some "X", source_url := some "http://x/9",
    relevance_score := none, gemini_analyzed := none, is_remote := none,
    job_type := none, category := none, payload := "" }

/-- A record with relevance score 30. -/
def jScore30 : PyJob :=
  { title := some "T30", company := some "C30", source_url := some "http://x/30",
    relevance_score := some 30, gemini_analyzed := none, is_remote := none,
    job_type := none, category := none, payload := "" }

/-- A record with relevance score 60. -/
def jScore60 : PyJob :=
  { title := some "T60", company := some "C60", source_url := some "http://x/60",
    relevance_score := some 60, gemini_analyzed := none, is_remote := none,
    job_type := none, category := none, payload := "" }

/-- Academic-source version of a posting at url `http://x/1`. -/
def jUrlA : PyJob :=
  { title := some "AI Ethics Fellow", company := some "MIT",
    source_url := some "http://x/1", relevance_score := some 90,
    gemini_analyzed := none, is_remote := none, job_type := some "faculty",
    category := some "research", payload := "academic version" }

/-- LinkedIn-source version of the same posting: same url, every other
field different. -/
def jUrlB : PyJob :=
  { title := some "Different Title", company := some "Other Org",
    source_url := some "http://x/1", relevance_score := none,
    gemini_analyzed := some true, is_remote := some true, job_type := none,
    category := none, payload := "linkedin version" }

/-- A record with no url, identified by title and company. -/
def jNoUrl : PyJob :=
  { title := some "AI Ethics Fellow", company := some "MIT",
    source_url := none, relevance_score := some 70, gemini_analyzed := none,
    is_remote := none, job_type := none, category := none, payload := "" }

/-- A search combination as the normalizer sees it. -/
def c3combo : Combo :=
  { keyword := "AI policy", location := "United States", experienceLevel := "",
    gemini_analyze := none }

/-- A raw record whose company field is absent: `determineJobType` calls
`toLowerCase` on it and throws. -/
def rawNoCompany : RawJob :=
  { position := some "AI Ethics Fellow", company := none, location := none,
    date := none, jobUrl := none, salary := none, companyLogo := none,
    agoTime := none }

/-- A raw record whose position field is absent: `generateTags` calls
`toLowerCase` on it and throws. -/
def rawNoPosition : RawJob :=
  { position := none, company := some "MIT", location := none, date := none,
    jobUrl := none, salary := none, companyLogo := none, agoTime := none }

/-- A raw record with position and company present and every other field
absent. -/
def rawMinimal : RawJob :=
  { position := some "AI Ethics Fellow", company := some "MIT",
    location := none, date := none, jobUrl := none, salary := none,
    companyLogo := none, agoTime := none }

/-- The search combination for the C9 witness. -/
def c9combo : Combo :=
  { keyword := "AI ethics", location := "Remote", experienceLevel := "",
    gemini_analyze := none }

/-- The raw record for the C9 witness. -/
def c9raw : RawJob :=
  { position := some "AI Ethics Fellow", company := some "MIT",
    location := none, date := none, jobUrl := some "http://x/1",
    salary := none, companyLogo := none, agoTime := none }

/-- The Job Record the normalizer produces from `c9raw` under `c9combo` on
2025-01-01. -/
def rec0 : JobRecord :=
  { title := "AI Ethics Fellow", company := "MIT", location := "Remote",
    job_type := "industry", category := "research",
    description := "LinkedIn: AI Ethics Fellow at MIT. Query: AI ethics",
    posting_date := "2025-01-01", deadline := none,
    source_url := "http://x/1", source_site := "linkedin",
    tags := ["AI ethics", "AI", "Ethics"], relevance_score := 60,
    salary_info := "", is_remote := true, search_query := "AI ethics",
    experience_level := "", company_logo := "", ago_time := "",
    gemini_analyze := false }

/-! ### Lemmas about `dedupKeyed` -/

theorem sublist_dedupKeyed {α β : Type} [DecidableEq β] (key : α → β)
    (l : List α) : ∀ seen : List β, (dedupKeyed key seen l).Sublist l := by
  induction l with
  | nil => intro seen; simp [dedupKeyed]
  | cons x rest ih =>
    intro seen
    simp only [dedupKeyed]
    by_cases h : key x ∈ seen
    · rw [if_pos h]; exact (ih seen).cons x
    · rw [if_neg h]; exact (ih (key x :: seen)).cons₂ x

theorem key_not_seen_of_mem_dedupKeyed {α β : Type} [DecidableEq β]
    (key : α → β) (l : List α) :
    ∀ (seen : List β) (x : α), x ∈ dedupKeyed key seen l → key x ∉ seen := by
  induction l with
  | nil => intro seen x hx; simp [dedupKeyed] at hx
  | cons y rest ih =>
    intro seen x hx
    simp only [dedupKeyed] at hx
    by_cases h : key y ∈ seen
    · rw [if_pos h] at hx; exact ih seen x hx
    · rw [if_neg h] at hx
      rcases List.mem_cons.mp hx with rfl | hx2
      · exact h
      · intro hmem
        exact ih (key y :: seen) x hx2 (List.mem_cons_of_mem _ hmem)

theorem pairwise_dedupKeyed {α β : Type} [DecidableEq β] (key : α → β)
    (l : List α) :
    ∀ seen : List β,
      (dedupKeyed key seen l).Pairwise (fun a b => key a ≠ key b) := by
  induction l with
  | nil => intro seen; simp [dedupKeyed]
  | cons y rest ih =>
    intro seen
    simp only [dedupKeyed]
    by_cases h : key y ∈ seen
    · rw [if_pos h]; exact ih seen
    · rw [if_neg h]
      refine List.pairwise_cons.mpr ⟨?_, ih (key y :: seen)⟩
      intro b hb he
      have hnot := key_not_seen_of_mem_dedupKeyed key rest (key y :: seen) b hb
      exact hnot (by rw [← he]; exact List.mem_cons_self _ _)

theorem find?_dedupKeyed {α β : Type} [DecidableEq β] (key : α → β)
    (l : List α) :
    ∀ (seen : List β) (s : β), s ∉ seen →
      (dedupKeyed key seen l).find? (fun j => decide (key j = s))
        = l.find? (fun j => decide (key j = s)) := by
  induction l with
  | nil => intro seen s _; simp [dedupKeyed]
  | cons y rest ih =>
    intro seen s hs
    simp only [dedupKeyed]
    by_cases h : key y ∈ seen
    · rw [if_pos h]
      have hne : key y ≠ s := fun he => hs (he ▸ h)
      rw [List.find?_cons_of_neg _ (by simp [hne]), ih seen s hs]
    · rw [if_neg h]
      by_cases he : key y = s
      · rw [List.find?_cons_of_pos _ (by simp [he]),
          List.find?_cons_of_pos _ (by simp [he])]
      · rw [List.find?_cons_of_neg _ (by simp [he]),
          List.find?_cons_of_neg _ (by simp [he])]
        refine ih (key y :: seen) s ?_
        intro hmem
        rcases List.mem_cons.mp hmem with h1 | h2
        · exact he h1.symm
        · exact hs h2

/-! ### Stability of the ranker

`filter` to a fixed score commutes with the descending stable sort: records
of equal score keep their relative input order. -/

theorem filter_orderedInsert_eq (s : Int) (x : PyJob) (hx : sortKey x = s) :
    ∀ l : List PyJob,
      (l.orderedInsert jobGE x).filter (fun j => decide (sortKey j = s))
        = x :: l.filter (fun j => decide (sortKey j = s)) := by
  intro l
  induction l with
  | nil => simp [List.orderedInsert, hx]
  | cons h t ih =>
    simp only [List.orderedInsert]
    by_cases hr : jobGE x h
    · rw [if_pos hr]
      simp [List.filter_cons, hx]
    · rw [if_neg hr]
      have hlt : sortKey x < sortKey h := lt_of_not_le hr
      have hne : sortKey h ≠ s := by
        rw [← hx]; exact ne_of_gt hlt
      simp [List.filter_cons, hne, ih]

theorem filter_orderedInsert_ne (s : Int) (x : PyJob) (hx : sortKey x ≠ s) :
    ∀ l : List PyJob,
      (l.orderedInsert jobGE x).filter (fun j => decide (sortKey j = s))
        = l.filter (fun j => decide (sortKey j = s)) := by
  intro l
  induction l with
  | nil => simp [List.orderedInsert, hx]
  | cons h t ih =>
    simp only [List.orderedInsert]
    by_cases hr : jobGE x h
    · rw [if_pos hr]
      simp [List.filter_cons, hx]
    · rw [if_neg hr]
      simp [List.filter_cons, ih]

theorem filter_rankJobs (s : Int) (l : List PyJob) :
    (rankJobs l).filter (fun j => decide (sortKey j = s))
      = l.filter (fun j => decide (sortKey j = s)) := by
  induction l with
  | nil => rfl
  | cons x t ih =>
    simp only [rankJobs] at ih ⊢
    show ((List.insertionSort jobGE t).orderedInsert jobGE x).filter _ = _
    by_cases hx : sortKey x = s
    · rw [filter_orderedInsert_eq s x hx, ih]
      simp [List.filter_cons, hx]
    · rw [filter_orderedInsert_ne s x hx, ih]
      simp [List.filter_cons, hx]

/-! ### Claim theorems -/

/-- Claim C1, as stated, is false: the sort key of the ranker defaults an
absent `relevance_score` to 0, not to 60, and a record with no score is
ordered after a score-30 record (whereas a true score of 60 would come
first), so it is not ordered as if its score were 60. -/
theorem ranker_default_not_sixty :
    sortKey jNoScore = 0 ∧ sortKey jNoScore ≠ 60
      ∧ rankJobs [jScore30, jNoScore] = [jScore30, jNoScore]
      ∧ rankJobs [jScore30, jScore60] = [jScore60, jScore30] := by
  refine ⟨rfl, by decide, ?_, ?_⟩ <;> rfl

/-- Claim C1 (amended): in the Ranker, a job record with no
`relevance_score` field gets the default sort key 0 (not 60), so it is
ordered as if its score were 0. -/
theorem ranker_missing_score_key (j : PyJob) (h : j.relevance_score = none) :
    sortKey j = 0 := by
  simp [sortKey, h]

/-- Witness for C1 (amended) at the concrete score-free record. -/
theorem ranker_missing_score_key_witness : sortKey jNoScore = 0 :=
  ranker_missing_score_key jNoScore rfl

/-- Claim C2: the publish step of integrate_data.py opens the published
path directly with mode `w` and streams `json.dump` into it; at the failing
input (previous artifact `oldfile`, run writing `newdata` crashing after 3
characters) the published path holds the truncated text `new` — neither the
previous good artifact nor the complete dataset — and no temporary file was
ever involved. -/
theorem publish_truncates_on_crash :
    (publishArtifact "newdata" (some 3)
        { published := some "oldfile", tempFile := none }).published = some "new"
      ∧ (publishArtifact "newdata" (some 3)
          { published := some "oldfile", tempFile := none }).published ≠ some "oldfile"
      ∧ (publishArtifact "newdata" (some 3)
          { published := some "oldfile", tempFile := none }).published ≠ some "newdata"
      ∧ (publishArtifact "newdata" (some 3)
          { published := some "oldfile", tempFile := none }).tempFile = none := by
  refine ⟨rfl, by decide, by decide, rfl⟩

/-- Claim C4: the Identity Resolver returns `source_url` verbatim when it is
non-empty — hence any two records with the same non-empty `source_url` get
the same identity regardless of every other field — and otherwise returns
`title` and `company` joined by the separator `-`. -/
theorem identifier_spec :
    (∀ (j : PyJob) (u : String), u ≠ "" → j.source_url = some u →
        identifier j = u)
      ∧ (∀ (j k : PyJob) (u : String), u ≠ "" → j.source_url = some u →
          k.source_url = some u → identifier j = identifier k)
      ∧ (∀ j : PyJob, j.source_url.getD "" = "" →
          identifier j = j.title.getD "" ++ "-" ++ j.company.getD "") := by
  refine ⟨?_, ?_, ?_⟩
  · intro j u hu hj
    simp [identifier, hj, hu]
  · intro j k u hu hj hk
    simp [identifier, hj, hk, hu]
  · intro j h
    simp [identifier, h]

/-- Witness for C4: the two source versions of the posting at
`http://x/1` resolve to the same identity although every other field
differs, and the url-free record is identified by `title-company`. -/
theorem identifier_spec_witness :
    identifier jUrlA = "http://x/1" ∧ identifier jUrlA = identifier jUrlB
      ∧ identifier jNoUrl = "AI Ethics Fellow-MIT" := by
  refine ⟨identifier_spec.1 jUrlA "http://x/1" (by decide) rfl,
    identifier_spec.2.1 jUrlA jUrlB "http://x/1" (by decide) rfl rfl,
    (identifier_spec.2.2 jNoUrl rfl).trans (by decide)⟩

/-- Claim C5: the Deduplicator keeps at most one record per identity
(pairwise distinct identifiers in the output), and for every identity the
record it keeps is the first occurrence in input order — the first match in
the output equals the first match in the input, for every identity `s`.
In particular, with source order `[A, B]` and the same identity in both,
the output record is the version of `A`. -/
theorem dedup_first_occurrence_wins :
    ∀ l : List PyJob,
      ((dedupJobs l).Pairwise fun a b => identifier a ≠ identifier b)
        ∧ ∀ s : String,
            (dedupJobs l).find? (fun j => decide (identifier j = s))
              = l.find? (fun j => decide (identifier j = s)) :=
  fun l =>
    ⟨pairwise_dedupKeyed identifier l [],
     fun s => find?_dedupKeyed identifier l [] s (by simp)⟩

/-- Claim C7: the Ranker output is non-increasing in the relevance sort key,
and for every score the records holding that score appear in the output in
exactly their relative input order (stable sort). -/
theorem rank_sorted_stable :
    ∀ l : List PyJob,
      ((rankJobs l).Pairwise fun a b => sortKey b ≤ sortKey a)
        ∧ ∀ s : Int,
            (rankJobs l).filter (fun j => decide (sortKey j = s))
              = l.filter (fun j => decide (sortKey j = s)) :=
  fun l => ⟨List.sorted_insertionSort jobGE l, fun s => filter_rankJobs s l⟩

/-- Claim C8: the duplicates_removed counter equals the sum of the
per-source pre-dedup record counts (jsearch contributing zero) minus the
number of records in the published deduplicated sequence, and total_jobs is
that published length. -/
theorem duplicates_removed_arith (now : String) (a r li : List PyJob) :
    (integrate now a r li).stats.duplicates_removed
        = (a.length + r.length + li.length) - (integrate now a r li).jobs.length
      ∧ (integrate now a r li).stats.academic_jobs + (integrate now a r li).stats.jsearch_jobs
          + (integrate now a r li).stats.rss_jobs + (integrate now a r li).stats.linkedin_jobs
        = a.length + r.length + li.length
      ∧ (integrate now a r li).stats.total_jobs = (integrate now a r li).jobs.length := by
  refine ⟨?_, by simp [integrate], rfl⟩
  show (a ++ r ++ li).length - (rankJobs (dedupJobs (a ++ r ++ li))).length
      = (a.length + r.length + li.length) - (rankJobs (dedupJobs (a ++ r ++ li))).length
  simp [List.length_append, Nat.add_assoc]

/-- Claim C10: the Deduplicator never reorders the records it keeps — its
output is a sublist (order-preserving subsequence) of its input. -/
theorem dedup_sublist : ∀ l : List PyJob, (dedupJobs l).Sublist l :=
  fun l => sublist_dedupKeyed identifier l []

/-! ### Normalizer lemmas and claims -/

theorem determineJobType_mem (c : String) :
    determineJobType c = "faculty" ∨ determineJobType c = "government"
      ∨ determineJobType c = "international" ∨ determineJobType c = "nonprofit"
      ∨ determineJobType c = "industry" := by
  simp only [determineJobType]
  split_ifs <;> simp

theorem generateTags_nodup (t q : String) : (generateTags t q).Nodup := by
  unfold generateTags
  exact pairwise_dedupKeyed id _ []

/-- Claim C3, as stated, is false: a raw record with the company field
absent (or the position field absent) makes the normalizer throw — the map
body calls `determineJobType(job.company)` and
`generateTags(job.position, ...)`, which invoke `toLowerCase` on the raw
value — so no record is returned. -/
theorem normalize_raises_on_missing_required :
    normalize "2025-01-01" c3combo rawNoCompany = none
      ∧ normalize "2025-01-01" c3combo rawNoPosition = none :=
  ⟨rfl, rfl⟩

/-- Claim C3 (amended): for every raw record with the position and company
fields present, and any subset of the remaining fields absent or null, the
Field Normalizer returns a complete Job Record without raising. -/
theorem normalize_total_on_contract (today : String) (combo : Combo)
    (job : RawJob) (hp : job.position.isSome = true)
    (hc : job.company.isSome = true) :
    (normalize today combo job).isSome = true := by
  cases hcc : job.company with
  | none => simp [hcc] at hc
  | some comp =>
    cases hpp : job.position with
    | none => simp [hpp] at hp
    | some pos => simp [normalize, hcc, hpp]

/-- Witness for C3 (amended): a raw record carrying nothing but position and
company still normalizes to a record. -/
theorem normalize_total_on_contract_witness :
    (normalize "2025-01-01" c3combo rawMinimal).isSome = true :=
  normalize_total_on_contract "2025-01-01" c3combo rawMinimal rfl rfl

/-- Claim C6: the `job_type` classifier evaluates its case-insensitive
substring rules in the fixed order university/college, government/federal,
united nations/oecd, foundation/nonprofit, falling through to industry, the
first matching rule winning: whenever an earlier rule matches the later
rules are never consulted.  The company name `University of Law Foundation`
matches both the university rule and the foundation rule and classifies as
`faculty`. -/
theorem determineJobType_ordered_rules :
    (determineJobType "University of Law Foundation" = "faculty"
        ∧ nonprofitMatch (lower "University of Law Foundation") = true)
      ∧ (∀ c, univMatch (lower c) = true → determineJobType c = "faculty")
      ∧ (∀ c, univMatch (lower c) = false → govMatch (lower c) = true →
          determineJobType c = "government")
      ∧ (∀ c, univMatch (lower c) = false → govMatch (lower c) = false →
          intlMatch (lower c) = true → determineJobType c = "international")
      ∧ (∀ c, univMatch (lower c) = false → govMatch (lower c) = false →
          intlMatch (lower c) = false → nonprofitMatch (lower c) = true →
          determineJobType c = "nonprofit")
      ∧ (∀ c, univMatch (lower c) = false → govMatch (lower c) = false →
          intlMatch (lower c) = false → nonprofitMatch (lower c) = false →
          determineJobType c = "industry") := by
  refine ⟨⟨by decide, by decide⟩, ?_, ?_, ?_, ?_, ?_⟩
  · intro c h1
    simp [determineJobType, h1]
  · intro c h1 h2
    simp [determineJobType, h1, h2]
  · intro c h1 h2 h3
    simp [determineJobType, h1, h2, h3]
  · intro c h1 h2 h3 h4
    simp [determineJobType, h1, h2, h3, h4]
  · intro c h1 h2 h3 h4
    simp [determineJobType, h1, h2, h3, h4]

/-- Witness for C6: a company matching only the government rule classifies
as government, and a company matching no rule falls through to industry. -/
theorem determineJobType_ordered_rules_witness :
    determineJobType "US Federal Reserve" = "government"
      ∧ determineJobType "Acme Corp" = "industry" :=
  ⟨determineJobType_ordered_rules.2.2.1 "US Federal Reserve" (by decide) (by decide),
   determineJobType_ordered_rules.2.2.2.2.2 "Acme Corp" (by decide) (by decide)
     (by decide) (by decide)⟩

/-- Claim C9: every Job Record the Field Normalizer returns has
`relevance_score` in [0, 100] (it is the pre-annotation default 60), a
non-null `job_type` drawn from the five classifier results, the non-null
default `category` research, and a duplicate-free tags list. -/
theorem normalizer_invariants (today : String) (combo : Combo) (job : RawJob)
    (rec : JobRecord) (h : normalize today combo job = some rec) :
    (0 ≤ rec.relevance_score ∧ rec.relevance_score ≤ 100)
      ∧ (rec.job_type = "faculty" ∨ rec.job_type = "government"
          ∨ rec.job_type = "international" ∨ rec.job_type = "nonprofit"
          ∨ rec.job_type = "industry")
      ∧ rec.category = "research" ∧ rec.tags.Nodup := by
  unfold normalize at h
  cases hcc : job.company with
  | none => rw [hcc] at h; exact absurd h (by simp)
  | some comp =>
    rw [hcc] at h
    cases hpp : job.position with
    | none => rw [hpp] at h; exact absurd h (by simp)
    | some pos =>
      rw [hpp] at h
      injection h with h2
      subst h2
      exact ⟨⟨(by decide : (0 : Int) ≤ 60), (by decide : (60 : Int) ≤ 100)⟩,
        determineJobType_mem comp, rfl, generateTags_nodup pos combo.keyword⟩

/-- Witness for C9 at the concrete normalization of `c9raw`. -/
theorem normalizer_invariants_witness :
    (0 ≤ rec0.relevance_score ∧ rec0.relevance_score ≤ 100)
      ∧ (rec0.job_type = "faculty" ∨ rec0.job_type = "government"
          ∨ rec0.job_type = "international" ∨ rec0.job_type = "nonprofit"
          ∨ rec0.job_type = "industry")
      ∧ rec0.category = "research" ∧ rec0.tags.Nodup :=
  normalizer_invariants "2025-01-01" c9combo c9raw rec0 (by decide)

end AiJobs
